import Mathlib

/-!
Shallow embedding of the lead-capture backend (`src/main.py`, `src/schemas.py`).

The process environment (`os.getenv`) is modelled as a function from variable
names to optional string values.  The external collaborators that are not part
of the repository — the document-store gateway `create_document` (module
`database` is imported but absent from the sources) and the SMTP transport —
are modelled as oracles: an `Except`-valued insert outcome and a record of
which network steps of one SMTP session succeed.  All functions below are
transcribed from the Python source, statement by statement.
-/

namespace LeadBackend

/-- The process environment: `os.getenv name` yields `some value` when the
variable is set (possibly to the empty string) and `none` when unset. -/
def Env : Type := String → Option String

/-- Python truthiness test `not x` for an optional string: true exactly when
the value is `None` or the empty string. -/
def falsy : Option String → Bool
  | none => true
  | some s => s == ""

/-- Whitespace-stripping of a character list at both ends, modelling
Python `str.strip()` as used by `int()` on string arguments. -/
def stripEnds (cs : List Char) : List Char :=
  ((cs.dropWhile Char.isWhitespace).reverse.dropWhile Char.isWhitespace).reverse

/-- Continuation of a digit run in a Python integer literal: digits with
single underscores allowed strictly between digits. -/
def digitRunRest : List Char → Bool
  | [] => true
  | c :: cs =>
    if c == '_' then
      match cs with
      | [] => false
      | d :: ds => d.isDigit && digitRunRest ds
    else
      c.isDigit && digitRunRest cs

/-- A nonempty digit run, first character a digit, underscores only between
digits — the shape accepted by Python `int()` after sign and stripping. -/
def digitRun : List Char → Bool
  | [] => false
  | c :: cs => c.isDigit && digitRunRest cs

/-- Numeric value of a digit run, skipping underscore separators. -/
def digitsVal (cs : List Char) : Nat :=
  cs.foldl (fun acc c => if c == '_' then acc else acc * 10 + (c.toNat - '0'.toNat)) 0

/-- Python `int(s)` on a string argument: strip whitespace, optional sign,
then a nonempty digit run (underscore separators allowed).  `none` models the
`ValueError` raised on any other input (e.g. `int("abc")`). -/
def pyInt (s : String) : Option Int :=
  match stripEnds s.data with
  | '+' :: rest => if digitRun rest then some (digitsVal rest) else none
  | '-' :: rest => if digitRun rest then some (-(digitsVal rest : Int)) else none
  | rest => if digitRun rest then some (digitsVal rest) else none

/-- Outcome oracle for the single SMTP session a `send_email` call opens:
whether each network step of `src/main.py` lines 118-121 (constructor connect,
STARTTLS, login, message transmission) and the closing QUIT of the `with`
block would succeed. -/
structure SmtpWorld where
  connectOk : Bool
  starttlsOk : Bool
  loginOk : Bool
  sendOk : Bool
  quitOk : Bool
deriving DecidableEq

/-- The message assembled by `send_email` (`src/main.py` lines 109-115):
header fields and plain-text content. -/
structure EmailMsg where
  subject : String
  fromAddr : String
  toLine : String
  ccLine : Option String
  content : String
deriving DecidableEq

/-- Result of a `send_email` call: `result` is `.ok b` for a normal boolean
return and `.error m` when an exception escapes to the caller; `netAttempted`
records whether any network operation was started; `msg` is the message that
was built, when execution reached that point. -/
structure SendOutcome where
  result : Except String Bool
  netAttempted : Bool
  msg : Option EmailMsg

/-- The exception text of Python `int("...")` failing, as `send_email` would
let it escape. -/
def intValueError : String := "ValueError: invalid literal for int() with base 10"

/-- Whether a string may be stored as an email header value.  `EmailMessage`
uses `email.policy.default`, whose `header_store_parse` raises `ValueError`
for any value containing a linefeed or carriage return; the header
assignments of `src/main.py` lines 110-114 sit outside the `try` block, so
such a value raises to `send_email`'s caller. -/
def headerSafe (s : String) : Bool :=
  !(s.data.contains '\n') && !(s.data.contains '\r')

/-- The exception text of that header-store rejection. -/
def headerValueError : String :=
  "ValueError: Header values may not contain linefeed or carriage return characters"

/-- The from-address computed on `src/main.py` line 103:
`os.getenv("SMTP_FROM", smtp_user or "no-reply@localhost")`. -/
def smtpFromOf (env : Env) : String :=
  match env "SMTP_FROM" with
  | some s => s
  | none => if falsy (env "SMTP_USER") then "no-reply@localhost" else (env "SMTP_USER").getD ""

/-- Transcription of `send_email` (`src/main.py` lines 98-124).  Two error
paths precede the `try` block and raise to the caller: the port parse
`int(os.getenv("SMTP_PORT", "587"))` on line 100 (before the configuration
guard on line 105), and the header assignments on lines 110-114, which under
`email.policy.default` reject any header value containing CR or LF — the
subject, the from-address, the joined To line and, when the CC list is
nonempty, the joined Cc line.  Every exception inside the `with` block
(connect, STARTTLS, login, send, quit) is caught and yields `False`. -/
def send_email (env : Env) (net : SmtpWorld) (subject body : String)
    (to_addrs : List String) (cc_addrs : List String) : SendOutcome :=
  let smtp_host := env "SMTP_HOST"
  match pyInt ((env "SMTP_PORT").getD "587") with
  | none => { result := .error intValueError, netAttempted := false, msg := none }
  | some _smtp_port =>
    let smtp_user := env "SMTP_USER"
    let smtp_pass := env "SMTP_PASS"
    let smtp_from := smtpFromOf env
    if falsy smtp_host || falsy smtp_user || falsy smtp_pass then
      -- Email not configured; skip silently but return False
      { result := .ok false, netAttempted := false, msg := none }
    else
      let toLine := String.intercalate ", " to_addrs
      if !headerSafe subject || !headerSafe smtp_from || !headerSafe toLine ||
          (!cc_addrs.isEmpty && !headerSafe (String.intercalate ", " cc_addrs)) then
        { result := .error headerValueError, netAttempted := false, msg := none }
      else
        let m : EmailMsg :=
          { subject := subject
            fromAddr := smtp_from
            toLine := toLine
            ccLine := if cc_addrs.isEmpty then none else some (String.intercalate ", " cc_addrs)
            content := body }
        { result := .ok (net.connectOk && net.starttlsOk && net.loginOk && net.sendOk && net.quitOk)
          netAttempted := true
          msg := some m }

/-- The sede-to-environment-variable table of `get_sede_cc_email`
(`src/main.py` lines 87-93). -/
def key_map : List (String × String) :=
  [("San Isidro", "SEDE_SAN_ISIDRO_EMAIL"),
   ("La Molina", "SEDE_LA_MOLINA_EMAIL"),
   ("Pueblo Libre", "SEDE_PUEBLO_LIBRE_EMAIL"),
   ("Breña", "SEDE_BRENA_EMAIL"),
   ("San Miguel", "SEDE_SAN_MIGUEL_EMAIL")]

/-- Transcription of `get_sede_cc_email` (`src/main.py` lines 78-95): look the
sede up in `key_map`; on a hit read the named environment variable, otherwise
`None`. -/
def get_sede_cc_email (env : Env) (sede : String) : Option String :=
  match key_map.lookup sede with
  | some env_key => env env_key
  | none => none

/-- The `Lead` pydantic model of `src/schemas.py` lines 44-61.  Field types
follow the annotations; required fields are guaranteed present by the record
type itself, and `courses` defaults to the empty list, `message` and `source`
to `None`, at construction sites. -/
structure Lead where
  parent_name : String
  parent_email : String
  parent_phone : String
  child_name : String
  child_age : Int
  program : String
  sede : String
  courses : List String
  message : Option String
  source : Option String
deriving DecidableEq

/-- Modelled from the spec: `parent_email` "must be a syntactically valid
email address".  The source delegates this to pydantic `EmailStr`, whose
validator (the email-validator library) is not part of this repository; the
check is modelled as: exactly one at-sign, a nonempty local part before it,
and a nonempty domain after it that contains a dot. -/
def emailValid (s : String) : Bool :=
  let cs := s.data
  (cs.count '@' == 1) &&
  (let locPart := cs.takeWhile (fun c => !(c == '@'))
   let domPart := (cs.dropWhile (fun c => !(c == '@'))).drop 1
   !locPart.isEmpty && !domPart.isEmpty && domPart.contains '.')

/-- The field constraints pydantic checks when constructing a `Lead`
(`src/schemas.py` lines 49-61): `child_age` between 3 and 17 inclusive and
`parent_email` a syntactically valid email.  The plain `str` fields carry no
constraint — in particular no minimum length. -/
def leadValid (l : Lead) : Bool :=
  decide (3 ≤ l.child_age) && decide (l.child_age ≤ 17) && emailValid l.parent_email

/-- Pydantic validation of a `Lead` payload: the model instance on success, a
`ValidationError` description otherwise.  Both FastAPI's parsing of the
request body and the handler's explicit `Lead(**lead.model_dump())` perform
exactly this check on the field values. -/
def Lead.validate (l : Lead) : Except String Lead :=
  if leadValid l then .ok l else .error "1 validation error for Lead"

/-- Caller-visible failure of the endpoint: an `HTTPException` with status
and detail, or an exception that escapes the handler uncaught. -/
inductive HandlerError where
  | http (status : Nat) (detail : String)
  | uncaught (msg : String)
deriving DecidableEq

/-- The success payload of `create_lead` (`src/main.py` line 167). -/
structure LeadResponse where
  ok : Bool
  id : String
  email_sent : Bool
deriving DecidableEq

/-- Side-effect record of one endpoint execution: whether the
`create_document` insert was called and whether any SMTP network operation
was started. -/
structure CreateEffects where
  dbCalled : Bool
  netAttempted : Bool
deriving DecidableEq

/-- Python `x or '—'` on an optional string (`src/main.py` lines 160-161):
the placeholder when the value is `None` or empty. -/
def pyOrDash : Option String → String
  | some s => if s == "" then "—" else s
  | none => "—"

/-- The course list section `', '.join(lead.courses) if lead.courses else
'N/A'` (`src/main.py` line 152). -/
def coursesJoined (cs : List String) : String :=
  if cs.isEmpty then "N/A" else String.intercalate ", " cs

/-- The notification subject built on `src/main.py` line 147. -/
def leadSubject (l : Lead) : String :=
  "Nueva Acrópolis Lima - Lead Kids (" ++ l.program ++ ") - " ++ l.sede

/-- The notification body built on `src/main.py` lines 148-163, one `++` per
f-string fragment. -/
def leadBody (l : Lead) (lead_id : String) : String :=
  "Nuevo lead recibido para Cursos de Verano Kids\n\n" ++
  "Sede: " ++ l.sede ++ "\n" ++
  "Programa: " ++ l.program ++ "\n" ++
  "Cursos de interés: " ++ coursesJoined l.courses ++ "\n\n" ++
  "Datos del padre/madre:\n" ++
  "- Nombre: " ++ l.parent_name ++ "\n" ++
  "- Email: " ++ l.parent_email ++ "\n" ++
  "- Teléfono: " ++ l.parent_phone ++ "\n\n" ++
  "Datos del niño/niña:\n" ++
  "- Nombre: " ++ l.child_name ++ "\n" ++
  "- Edad: " ++ toString l.child_age ++ "\n\n" ++
  "Mensaje: " ++ pyOrDash l.message ++ "\n" ++
  "Fuente: " ++ pyOrDash l.source ++ "\n" ++
  "ID: " ++ lead_id ++ "\n"

/-- The primary recipient read on `src/main.py` line 144:
`os.getenv("LEADS_TO", "cursos@acropolisperu.org")`. -/
def leadsToAddr (env : Env) : String := (env "LEADS_TO").getD "cursos@acropolisperu.org"

/-- The CC list the handler builds on `src/main.py` lines 143-145: Python
`[sede_cc] if sede_cc else []` — empty when the resolver yields `None` or an
empty string. -/
def ccAddrsOf (env : Env) (sede : String) : List String :=
  match get_sede_cc_email env sede with
  | some s => if s == "" then [] else [s]
  | none => []

/-- Transcription of the handler `create_lead` (`src/main.py` lines 127-167).
`dbRes` is the outcome of the external `create_document("lead", lead)` call
(module `database` is not part of the sources): `.ok id` when the insert
returns an identifier, `.error e` when it raises an exception rendering as
`e`.  The pair's second component records the side effects. -/
def create_lead (env : Env) (dbRes : Except String String) (net : SmtpWorld)
    (lead : Lead) : Except HandlerError LeadResponse × CreateEffects :=
  match Lead.validate lead with
  | .error ve => (.error (.http 422 ve), ⟨false, false⟩)
  | .ok _ =>
    match dbRes with
    | .error e => (.error (.http 500 ("Database error: " ++ e)), ⟨true, false⟩)
    | .ok lead_id =>
      let to_addrs := [leadsToAddr env]
      let cc_addrs := ccAddrsOf env lead.sede
      let out := send_email env net (leadSubject lead) (leadBody lead lead_id) to_addrs cc_addrs
      match out.result with
      | .error m => (.error (.uncaught m), ⟨true, out.netAttempted⟩)
      | .ok email_sent => (.ok ⟨true, lead_id, email_sent⟩, ⟨true, out.netAttempted⟩)

/-- The `POST /api/leads` endpoint: FastAPI first validates the request body
against the `Lead` model (a request failing validation is rejected with
status 422 before the handler body runs) and only then invokes
`create_lead`. -/
def api_create_lead (env : Env) (dbRes : Except String String) (net : SmtpWorld)
    (raw : Lead) : Except HandlerError LeadResponse × CreateEffects :=
  match Lead.validate raw with
  | .error ve => (.error (.http 422 ve), ⟨false, false⟩)
  | .ok lead => create_lead env dbRes net lead

/-! ### Concrete fixtures used by witnesses and counterexamples -/

/-- An environment with nothing set. -/
def env0 : Env := fun _ => none

/-- An environment whose only setting is a non-numeric `SMTP_PORT`. -/
def envBadPort : Env := fun k => if k == "SMTP_PORT" then some "abc" else none

/-- A session in which every SMTP network step succeeds. -/
def netAllOk : SmtpWorld := ⟨true, true, true, true, true⟩

/-- The valid submission of the spec's Scenario A. -/
def leadA : Lead :=
  { parent_name := "Ana", parent_email := "ana@x.com", parent_phone := "999"
    child_name := "Leo", child_age := 8, program := "Kids", sede := "San Isidro"
    courses := ["Ajedrez"], message := none, source := none }

/-- Scenario A's submission with an empty parent name: every field-level
constraint of the `Lead` model still holds. -/
def leadNoName : Lead :=
  { parent_name := "", parent_email := "ana@x.com", parent_phone := "999"
    child_name := "Leo", child_age := 8, program := "Kids", sede := "San Isidro"
    courses := [], message := none, source := none }

/-- Scenario B's submission: Scenario A with `child_age` 2. -/
def leadB : Lead :=
  { parent_name := "Ana", parent_email := "ana@x.com", parent_phone := "999"
    child_name := "Leo", child_age := 2, program := "Kids", sede := "San Isidro"
    courses := ["Ajedrez"], message := none, source := none }

lemma validate_eq_ok {l : Lead} (hv : leadValid l = true) : Lead.validate l = .ok l := by
  unfold Lead.validate
  simp [hv]

/-! ### Claim C1 -/

/-- C2: a submission whose `child_age` lies outside [3,17] is rejected with a
422 validation error and the `create_document` insert is never called. -/
theorem age_out_of_range_rejected (env : Env) (dbRes : Except String String)
    (net : SmtpWorld) (raw : Lead)
    (h : raw.child_age < 3 ∨ 17 < raw.child_age) :
    (api_create_lead env dbRes net raw).2.dbCalled = false ∧
      (api_create_lead env dbRes net raw).1 =
        .error (.http 422 "1 validation error for Lead") := by
  have hv : leadValid raw = false := by
    unfold leadValid
    rcases h with h | h
    · have h3 : ¬ (3 ≤ raw.child_age) := by omega
      simp [h3]
    · have h17 : ¬ (raw.child_age ≤ 17) := by omega
      simp [h17]
  unfold api_create_lead Lead.validate
  simp [hv]

/-- C2 witness: Scenario B (`child_age` 2) is rejected and nothing is
persisted. -/
theorem age_out_of_range_rejected_witness :
    (leadB.child_age < 3 ∨ 17 < leadB.child_age) ∧
      ((api_create_lead env0 (.ok "L1") netAllOk leadB).2.dbCalled = false ∧
        (api_create_lead env0 (.ok "L1") netAllOk leadB).1 =
          .error (.http 422 "1 validation error for Lead")) :=
  ⟨by decide, age_out_of_range_rejected env0 (.ok "L1") netAllOk leadB (by decide)⟩

/-! ### Claim C3 -/

/-- C3: when `create_document` raises, the handler terminates with a 500
service error and no SMTP network operation is ever attempted. -/
theorem storage_failure_stops_before_notification (env : Env) (net : SmtpWorld)
    (l : Lead) (e : String) (hv : leadValid l = true) :
    (create_lead env (.error e) net l).1 = .error (.http 500 ("Database error: " ++ e)) ∧
      (create_lead env (.error e) net l).2.netAttempted = false := by
  unfold create_lead
  simp [validate_eq_ok hv]

/-- C3 witness: Scenario A against a store whose insert raises "boom". -/
theorem storage_failure_stops_before_notification_witness :
    leadValid leadA = true ∧
      ((create_lead env0 (.error "boom") netAllOk leadA).1 =
          .error (.http 500 ("Database error: " ++ "boom")) ∧
        (create_lead env0 (.error "boom") netAllOk leadA).2.netAttempted = false) :=
  ⟨by decide, storage_failure_stops_before_notification env0 netAllOk leadA "boom" (by decide)⟩

/-! ### Claim C4 -/

/-- C5 counterexample: the claim fails as stated.  With the relay host (and
user and secret) absent but `SMTP_PORT` set to a non-numeric string,
`send_email` does not immediately return `false`: the port parse raises
first. -/
theorem send_email_missing_host_still_raises_on_bad_port :
    falsy (envBadPort "SMTP_HOST") = true ∧
      (send_email envBadPort netAllOk "s2" "b2" ["cursos@acropolisperu.org"] []).result
        = .error intValueError :=
  ⟨rfl, rfl⟩

/-- C5 (amended): when the configured `SMTP_PORT` value parses as an integer
and any of relay host, user or secret is missing (unset or empty),
`send_email` returns `false` without attempting a network operation, and a
valid submission whose insert succeeded is still answered with `ok = true`
and `email_sent = false`. -/
theorem incomplete_mail_config_reports_nondelivery (env : Env) (net : SmtpWorld)
    (l : Lead) (lead_id s b : String) (tos ccs : List String)
    (hp : (pyInt ((env "SMTP_PORT").getD "587")).isSome = true)
    (hcfg : (falsy (env "SMTP_HOST") || falsy (env "SMTP_USER") || falsy (env "SMTP_PASS")) = true)
    (hv : leadValid l = true) :
    (send_email env net s b tos ccs).result = .ok false ∧
      (send_email env net s b tos ccs).netAttempted = false ∧
      (create_lead env (.ok lead_id) net l).1 = .ok ⟨true, lead_id, false⟩ := by
  obtain ⟨p, hp'⟩ := Option.isSome_iff_exists.mp hp
  have hsend : ∀ s' b' tos' ccs', send_email env net s' b' tos' ccs' =
      { result := .ok false, netAttempted := false, msg := none } := by
    intro s' b' tos' ccs'
    unfold send_email
    simp only [hp', hcfg]
    rfl
  refine ⟨by rw [hsend], by rw [hsend], ?_⟩
  unfold create_lead
  simp only [validate_eq_ok hv, hsend]

/-- C5 witness: Scenario C — Scenario A's submission with the whole mail
configuration unset. -/
theorem incomplete_mail_config_reports_nondelivery_witness :
    ((pyInt ((env0 "SMTP_PORT").getD "587")).isSome = true ∧
        (falsy (env0 "SMTP_HOST") || falsy (env0 "SMTP_USER") || falsy (env0 "SMTP_PASS")) = true ∧
        leadValid leadA = true) ∧
      ((send_email env0 netAllOk "s" "b" ["cursos@acropolisperu.org"] []).result = .ok false ∧
        (send_email env0 netAllOk "s" "b" ["cursos@acropolisperu.org"] []).netAttempted = false ∧
        (create_lead env0 (.ok "L1") netAllOk leadA).1 = .ok ⟨true, "L1", false⟩) :=
  ⟨⟨by decide, by decide, by decide⟩,
    incomplete_mail_config_reports_nondelivery env0 netAllOk leadA "L1" "s" "b"
      ["cursos@acropolisperu.org"] [] (by decide) (by decide) (by decide)⟩

/-! ### Claim C6 -/

/-- C6: the resolver returns the configured address for exactly the five
recognized sede names — matched exactly, case- and accent-sensitively, each
from its own environment variable — and `none` for every other string; being
a total function of the environment and the name, it never fails. -/
theorem get_sede_cc_email_lookup_spec (env : Env) (s : String) :
    get_sede_cc_email env s =
      if s = "San Isidro" then env "SEDE_SAN_ISIDRO_EMAIL"
      else if s = "La Molina" then env "SEDE_LA_MOLINA_EMAIL"
      else if s = "Pueblo Libre" then env "SEDE_PUEBLO_LIBRE_EMAIL"
      else if s = "Breña" then env "SEDE_BRENA_EMAIL"
      else if s = "San Miguel" then env "SEDE_SAN_MIGUEL_EMAIL"
      else none := by
  by_cases h1 : s = "San Isidro"
  · subst h1; rfl
  · by_cases h2 : s = "La Molina"
    · subst h2; rfl
    · by_cases h3 : s = "Pueblo Libre"
      · subst h3; rfl
      · by_cases h4 : s = "Breña"
        · subst h4; rfl
        · by_cases h5 : s = "San Miguel"
          · subst h5; rfl
          · have e1 : (s == "San Isidro") = false := beq_eq_false_iff_ne.mpr h1
            have e2 : (s == "La Molina") = false := beq_eq_false_iff_ne.mpr h2
            have e3 : (s == "Pueblo Libre") = false := beq_eq_false_iff_ne.mpr h3
            have e4 : (s == "Breña") = false := beq_eq_false_iff_ne.mpr h4
            have e5 : (s == "San Miguel") = false := beq_eq_false_iff_ne.mpr h5
            simp [get_sede_cc_email, key_map, List.lookup, e1, e2, e3, e4, e5,
              h1, h2, h3, h4, h5]

/-! ### Claim C7 -/

/-- C7 counterexample: the claim fails as stated.  A submission with an empty
`parent_name` passes validation: the plain `str` fields of the `Lead` model
carry no minimum-length constraint, so "present and non-empty" does not
hold for every accepted submission. -/
theorem empty_parent_name_accepted :
    Lead.validate leadNoName = .ok leadNoName ∧ leadNoName.parent_name = "" :=
  ⟨rfl, rfl⟩

/-- C7 (amended): every submission accepted by validation has all declared
fields present (by construction of the record), `child_age` within [3,17]
and `parent_email` passing the email-syntax check, and is returned unchanged;
non-emptiness of the plain text fields is not enforced. -/
theorem validated_lead_field_invariants (l l' : Lead) (h : Lead.validate l = .ok l') :
    l' = l ∧ 3 ≤ l.child_age ∧ l.child_age ≤ 17 ∧ emailValid l.parent_email = true := by
  unfold Lead.validate at h
  by_cases hv : leadValid l = true
  · simp [hv] at h
    refine ⟨h.symm, ?_⟩
    unfold leadValid at hv
    simp only [Bool.and_eq_true, decide_eq_true_eq] at hv
    exact ⟨hv.1.1, hv.1.2, hv.2⟩
  · simp [hv] at h

/-- C7 witness: the amended theorem applied to Scenario A's submission. -/
theorem validated_lead_field_invariants_witness :
    Lead.validate leadA = .ok leadA ∧
      (leadA = leadA ∧ 3 ≤ leadA.child_age ∧ leadA.child_age ≤ 17 ∧
        emailValid leadA.parent_email = true) :=
  ⟨rfl, validated_lead_field_invariants leadA leadA rfl⟩

/-! ### Claim C8 -/

/-- C8: for every validated lead and persisted identifier, the subject equals
the fixed template naming the program and sede, and the body is the fixed
plain-text template carrying, in order: the sede, the program, the
comma-joined course list (placeholder "N/A" when empty), the parent's name,
email and phone, the child's name and age, the free-text message and the
marketing source (placeholder "—" when absent or empty), and the persisted
identifier. -/
theorem notification_template_spec (l : Lead) (lead_id : String) :
    leadSubject l = "Nueva Acrópolis Lima - Lead Kids (" ++ l.program ++ ") - " ++ l.sede ∧
      leadBody l lead_id =
        "Nuevo lead recibido para Cursos de Verano Kids\n\n" ++
        "Sede: " ++ l.sede ++ "\n" ++
        "Programa: " ++ l.program ++ "\n" ++
        "Cursos de interés: " ++
          (if l.courses.isEmpty then "N/A" else String.intercalate ", " l.courses) ++ "\n\n" ++
        "Datos del padre/madre:\n" ++
        "- Nombre: " ++ l.parent_name ++ "\n" ++
        "- Email: " ++ l.parent_email ++ "\n" ++
        "- Teléfono: " ++ l.parent_phone ++ "\n\n" ++
        "Datos del niño/niña:\n" ++
        "- Nombre: " ++ l.child_name ++ "\n" ++
        "- Edad: " ++ toString l.child_age ++ "\n\n" ++
        "Mensaje: " ++
          (match l.message with | some s => if s == "" then "—" else s | none => "—") ++ "\n" ++
        "Fuente: " ++
          (match l.source with | some s => if s == "" then "—" else s | none => "—") ++ "\n" ++
        "ID: " ++ lead_id ++ "\n" :=
  ⟨rfl, rfl⟩

/-! ### Claim C9 -/

/-- C9 counterexample: the claim fails as stated.  The 500 detail embeds the
full rendering of the underlying storage exception, so two distinct
exceptions produce two distinct caller-visible details — the diagnostic
content is leaked, not reduced to a generic message. -/
theorem db_error_detail_not_generic :
    (create_lead env0 (.error "connection refused by mongodb://10.0.0.5:27017") netAllOk leadA).1
        = .error (.http 500 "Database error: connection refused by mongodb://10.0.0.5:27017") ∧
      (create_lead env0 (.error "Authentication failed") netAllOk leadA).1
        = .error (.http 500 "Database error: Authentication failed") ∧
      "Database error: connection refused by mongodb://10.0.0.5:27017"
        ≠ "Database error: Authentication failed" :=
  ⟨rfl, rfl, by decide⟩

/-- C9 (amended): when the insert fails, the caller receives a 500 service
error whose detail is exactly the fixed prefix "Database error: " followed by
the full description of the underlying exception; the detail therefore varies
with, and reveals, the exception's content. -/
theorem db_error_detail_exact_format (env : Env) (net : SmtpWorld) (l : Lead)
    (e : String) (hv : leadValid l = true) :
    (create_lead env (.error e) net l).1 = .error (.http 500 ("Database error: " ++ e)) := by
  unfold create_lead
  simp [validate_eq_ok hv]

/-- C9 witness: the amended theorem applied to Scenario A and the exception
"mongo down". -/
theorem db_error_detail_exact_format_witness :
    leadValid leadA = true ∧
      (create_lead env0 (.error "mongo down") netAllOk leadA).1 =
        .error (.http 500 ("Database error: " ++ "mongo down")) :=
  ⟨by decide, db_error_detail_exact_format env0 netAllOk leadA "mongo down" (by decide)⟩

/-! ### Claim C10 -/

/-- C10: a lead that already passed validation re-validates to itself —
`Lead(**lead.model_dump())` reconstructs an equal value — so the handler's
explicit 422 branch is unreachable: no execution of `create_lead` on a
validated lead returns a 422 error. -/
theorem revalidation_always_succeeds (env : Env) (dbRes : Except String String)
    (net : SmtpWorld) (l : Lead) (hv : leadValid l = true) :
    Lead.validate l = .ok l ∧
      ∀ d : String, (create_lead env dbRes net l).1 ≠ .error (.http 422 d) := by
  refine ⟨validate_eq_ok hv, ?_⟩
  intro d
  unfold create_lead
  simp only [validate_eq_ok hv]
  cases dbRes with
  | error e => simp
  | ok lead_id =>
    simp only []
    split <;> simp

/-- C10 witness: Scenario A revalidates to itself and its handler run is not
a 422 error. -/
theorem revalidation_always_succeeds_witness :
    leadValid leadA = true ∧ Lead.validate leadA = .ok leadA ∧
      (create_lead env0 (.ok "L1") netAllOk leadA).1 ≠
        .error (.http 422 "1 validation error for Lead") :=
  ⟨by decide, (revalidation_always_succeeds env0 (.ok "L1") netAllOk leadA (by decide)).1,
    (revalidation_always_succeeds env0 (.ok "L1") netAllOk leadA (by decide)).2
      "1 validation error for Lead"⟩

end LeadBackend
